import Mathlib

/-!
Verification of the pusad-seva frontend repository.

The repository holds three single-page applications:
* `src/src/App.js` — the marketplace app with cookie-based auth (namespace `MainApp`);
* `src/unnamed/part_000` — the earliest marketplace iteration (namespace `EarlyApp`);
* `src/unnamed/part_001`, first document — the marketplace iteration that introduces
  the booking modal (namespace `ModalApp`);
* `src/unnamed/part_001`, second document — the collaborative whiteboard
  (namespace `Whiteboard`).

JavaScript values produced by JSON parsing are embedded as `JsVal`; JS numbers are
embedded as exact rationals (no overflow or NaN arithmetic is relevant to the
verified claims). Stateful React components are embedded as explicit state records
with handler functions, and asynchronous request outcomes are embedded as explicit
outcome data passed to those functions.
-/

/-- A JavaScript value as produced by JSON parsing, extended with `undefined`
(the result of reading an absent property). -/
inductive JsVal where
  | undefined
  | null
  | bool (b : Bool)
  | num (q : ℚ)
  | str (s : String)
  | arr (elems : List JsVal)
  | obj (fields : List (String × JsVal))

/-- JS truthiness: `undefined`, `null`, `false`, `0`, and the empty string are
falsy; every array and object is truthy. -/
def truthy : JsVal → Bool
  | .undefined => false
  | .null => false
  | .bool b => b
  | .num q => decide (q ≠ 0)
  | .str s => decide (s ≠ "")
  | .arr _ => true
  | .obj _ => true

/-- `Array.isArray`. -/
def isArray : JsVal → Bool
  | .arr _ => true
  | _ => false

/-- Property read `v[key]` on a JSON-parsed value. An object looks the key up in
its fields; an array has no own string-keyed properties besides `length`, so any
other key reads as `undefined`; on every other value the read is `undefined`. -/
def getProp (v : JsVal) (key : String) : JsVal :=
  match v with
  | .obj fields => ((fields.find? (fun f => f.1 == key)).map (fun f => f.2)).getD .undefined
  | .arr elems => if key == "length" then .num elems.length else .undefined
  | _ => .undefined

/-- Index read `v[i]`: on an array, the element or `undefined` past the end;
`undefined` on every other value used in this code. -/
def getIndex (v : JsVal) (i : ℕ) : JsVal :=
  match v with
  | .arr elems => elems.getD i .undefined
  | _ => .undefined

/-- Strict equality `v === s` against a string literal. -/
def strictEqStr (v : JsVal) (s : String) : Bool :=
  match v with
  | .str t => t == s
  | _ => false

/-- `Array.prototype.find`: first element satisfying the predicate, as an
`Option`. The sole caller applies it to a value already guarded to be array-like;
a non-array receiver would throw in JS and is never reached. -/
def jsFind (v : JsVal) (p : JsVal → Bool) : Option JsVal :=
  match v with
  | .arr elems => elems.find? p
  | _ => none

/-- Object spread `... v`: the own enumerable fields of `v`. Spreading an array
into an object literal yields its elements under their decimal index keys. -/
def spreadFields : JsVal → List (String × JsVal)
  | .obj fields => fields
  | .arr elems => elems.enum.map (fun p => (toString p.1, p.2))
  | _ => []

/-- Coercion of a value to display text, as performed by string interpolation in
an alert message. Number and array formatting details are elided (no verified
claim inspects them); strings, which are the only values actually interpolated
on the reachable paths, coerce to themselves. -/
def jsToDisplayString : JsVal → String
  | .str s => s
  | .num q => toString q
  | .bool b => toString b
  | .null => "null"
  | .undefined => "undefined"
  | .arr _ => ""
  | .obj _ => "[object Object]"

/-- `Number.prototype.toFixed(1)`: the sign of the receiver, then the integer n
minimizing the distance from n / 10 to the absolute value of the receiver (ties
resolved to the larger n, per the ECMAScript specification), printed with the
last digit after a decimal point. For a rational a / b in lowest terms with
b > 0, that n is (20 * a + b) / (2 * b) in integer division. -/
def toFixed1 (q : ℚ) : String :=
  let sign := if q < 0 then "-" else ""
  let n : ℕ := (20 * q.num.natAbs + q.den) / (2 * q.den)
  sign ++ toString (n / 10) ++ "." ++ toString (n % 10)

namespace MainApp

/-! Embedding of `src/src/App.js`, the marketplace app with Easy Auth. -/

def API_BASE_URL : String := "https://pusadseva-api.azurewebsites.net"

def FRONTEND_URL : String := "https://purple-field-07c264000.1.azurestaticapps.net"

/-- `buildFrontendReturnUrl`, with `window.location.pathname` and
`window.location.search` passed explicitly. The source wraps the body in
try/catch; the body is total here, so the catch arm is unreachable. -/
def buildFrontendReturnUrl (pathname search : String) : String :=
  let base := if FRONTEND_URL.endsWith "/" then FRONTEND_URL.dropRight 1 else FRONTEND_URL
  let path := if pathname = "" then "/" else pathname
  let srch := if search = "" then "" else search
  base ++ path ++ srch

/-- One uppercase hexadecimal digit. -/
def hexDigitChar (n : ℕ) : Char :=
  if n < 10 then Char.ofNat (48 + n) else Char.ofNat (55 + n)

/-- A percent-encoded byte, `%XX` with uppercase hex. -/
def percentByte (b : ℕ) : String :=
  "%" ++ String.singleton (hexDigitChar (b / 16)) ++ String.singleton (hexDigitChar (b % 16))

/-- The UTF-8 bytes of a character (standard 1–4 byte encoding). -/
def utf8Bytes (c : Char) : List ℕ :=
  let n := c.toNat
  if n < 128 then [n]
  else if n < 2048 then [192 + n / 64, 128 + n % 64]
  else if n < 65536 then [224 + n / 4096, 128 + n / 64 % 64, 128 + n % 64]
  else [240 + n / 262144, 128 + n / 4096 % 64, 128 + n / 64 % 64, 128 + n % 64]

/-- The characters `encodeURIComponent` leaves unencoded, by code point:
ASCII letters and digits and minus, underscore, dot, bang, tilde, star,
apostrophe, and the two parentheses. -/
def isUnreservedCode (n : ℕ) : Bool :=
  (decide (65 ≤ n) && decide (n ≤ 90)) ||
  (decide (97 ≤ n) && decide (n ≤ 122)) ||
  (decide (48 ≤ n) && decide (n ≤ 57)) ||
  [45, 95, 46, 33, 126, 42, 39, 40, 41].contains n

/-- `encodeURIComponent`: unreserved characters pass through, every other
character is UTF-8 encoded and percent-escaped byte by byte. -/
def encodeURIComponent (s : String) : String :=
  String.join (s.toList.map (fun c =>
    if isUnreservedCode c.toNat then String.singleton c
    else String.join ((utf8Bytes c).map percentByte)))

/-- `buildLoginUrl`: the Easy Auth login endpoint carrying the encoded return
address (the source keeps only the primary `..._uri` parameter variant). -/
def buildLoginUrl (pathname search : String) : String :=
  API_BASE_URL ++ "/.auth/login/aad?post_login_redirect_uri=" ++
    encodeURIComponent (buildFrontendReturnUrl pathname search)

/-- The component state held by `App` in `src/src/App.js`: one field per
`useState` hook, with the user modelled as the optional object `setUser`
receives. -/
structure AppState where
  professionals : JsVal
  selectedProfessional : Option JsVal
  isBooking : Bool
  isLoading : Bool
  error : Option String
  user : Option JsVal

/-- The initial hook values: empty professionals array, nothing selected,
modal closed, loading, no error, no user. -/
def initialState : AppState :=
  { professionals := .arr []
    selectedProfessional := none
    isBooking := false
    isLoading := true
    error := none
    user := none }

/-- `checkUserAuth` on a completed session-endpoint request: `ok` is
`response.ok` and `data` the parsed JSON body (a request failure or non-ok
response reaches no `setUser` call, which the `ok = false` case covers).
Returns the object passed to `setUser`, or `none` when `setUser` is not called.
The source tests `data.user_id` and reads `data.user_claims` on `data` itself,
which the guard has just established to be an array. -/
def checkUserAuth (ok : Bool) (data : JsVal) : Option JsVal :=
  if ok && isArray data && truthy (getIndex data 0) && truthy (getProp data "user_id") then
    let claims := if truthy (getProp data "user_claims") then getProp data "user_claims"
                  else .arr []
    let nameClaim := jsFind claims (fun c =>
      strictEqStr (getProp c "typ") "name" || strictEqStr (getProp c "typ") "preferred_username")
    let displayName := match nameClaim with
      | some c => getProp c "val"
      | none => getProp data "user_id"
    some (.obj (spreadFields data ++ [("displayName", displayName)]))
  else
    none

/-- Applying the `checkUserAuth` outcome to the component state: `setUser` runs
only when a user object was built; every other path leaves the state alone. -/
def applyCheckUserAuth (s : AppState) (ok : Bool) (data : JsVal) : AppState :=
  match checkUserAuth ok data with
  | some u => { s with user := some u }
  | none => s

/-- Outcome of the professionals request. `ok` carries the parsed JSON body;
`error` carries the message reaching the catch arm (thrown on a non-ok status,
a network failure, or a JSON parse failure). -/
inductive FetchResult where
  | ok (body : JsVal)
  | error (message : String)

/-- `fetchProfessionals` applied to its outcome: on success the professionals
state receives the body if it is an array and the empty array otherwise, and
the error stays cleared; on failure the error message is stored and the
professionals state is untouched. Loading ends either way (`finally`). -/
def fetchProfessionals (s : AppState) (r : FetchResult) : AppState :=
  match r with
  | .ok body =>
      { s with error := none
               professionals := if isArray body then body else .arr []
               isLoading := false }
  | .error message =>
      { s with error := some message, isLoading := false }

/-- `handleSelectProfessional`. -/
def handleSelectProfessional (s : AppState) (p : JsVal) : AppState :=
  { s with selectedProfessional := some p }

/-- `handleGoBack`. -/
def handleGoBack (s : AppState) : AppState :=
  { s with selectedProfessional := none }

/-- Browser-visible effects of a handler: alerts raised and the value assigned
to `window.location.href`, if any. -/
structure BrowserEffects where
  alerts : List String
  redirect : Option String

/-- `handleOpenBookingModal`: without a user, alert and redirect to the login
URL, leaving the state untouched; with a user, open the modal. -/
def handleOpenBookingModal (s : AppState) (pathname search : String) :
    AppState × BrowserEffects :=
  match s.user with
  | none =>
      (s, { alerts := ["Please log in to book a service."]
            redirect := some (buildLoginUrl pathname search) })
  | some _ =>
      ({ s with isBooking := true }, { alerts := [], redirect := none })

/-- `handleCloseBookingModal`. -/
def handleCloseBookingModal (s : AppState) : AppState :=
  { s with isBooking := false }

/-- Outcome of the booking POST: success with a parsed confirmation body,
success with an unparseable body (the message of the JSON parse error), a
non-ok status with the error body when that body parsed, or a network
failure. -/
inductive BookingResult where
  | ok (body : JsVal)
  | okBadJson (message : String)
  | httpError (errBody : Option JsVal)
  | networkError (message : String)

/-- `handleConfirmBooking` applied to its outcome. Without a user the handler
alerts and returns before any request, leaving the state untouched. With a
user the request runs; every outcome raises exactly one alert (success, or a
failure alert whose message prefers the `message` field of a parsed error
body), and the `finally` arm closes the modal unconditionally. -/
def handleConfirmBooking (s : AppState) (r : BookingResult) :
    AppState × BrowserEffects :=
  match s.user with
  | none =>
      (s, { alerts := ["You must be logged in to confirm a booking."], redirect := none })
  | some _ =>
      let alertText :=
        match r with
        | .ok _ => "Booking created successfully!"
        | .okBadJson message => "Booking failed: " ++ message
        | .httpError errBody =>
            let message :=
              match errBody with
              | some eb =>
                  if truthy eb && truthy (getProp eb "message") then
                    jsToDisplayString (getProp eb "message")
                  else "Failed to create the booking."
              | none => "Failed to create the booking."
            "Booking failed: " ++ message
        | .networkError message => "Booking failed: " ++ message
      ({ s with isBooking := false }, { alerts := [alertText], redirect := none })

/-- The events that write component state, one constructor per completion or
handler in `src/src/App.js`. -/
inductive Op where
  | authResponse (ok : Bool) (data : JsVal)
  | professionalsResponse (r : FetchResult)
  | selectProfessional (p : JsVal)
  | goBack
  | openBookingModal (pathname search : String)
  | closeBookingModal
  | confirmBooking (r : BookingResult)

/-- State transition of the app under one event. -/
def step (s : AppState) : Op → AppState
  | .authResponse ok data => applyCheckUserAuth s ok data
  | .professionalsResponse r => fetchProfessionals s r
  | .selectProfessional p => handleSelectProfessional s p
  | .goBack => handleGoBack s
  | .openBookingModal pathname search => (handleOpenBookingModal s pathname search).1
  | .closeBookingModal => handleCloseBookingModal s
  | .confirmBooking r => (handleConfirmBooking s r).1

/-- The rating line of `ProfessionalCard` (and `ProfessionalDetails`):
`professional.Rating ? Number(professional.Rating).toFixed(1) : "N/A"`. The
backend types `Rating` as a JSON number, embedded as an optional rational
(`none` when the field is absent); `Number` is the identity on numbers, and a
present zero is falsy. -/
def ratingText (rating : Option ℚ) : String :=
  match rating with
  | some q => if decide (q ≠ 0) then toFixed1 q else "N/A"
  | none => "N/A"

end MainApp

namespace EarlyApp

/-! Embedding of `src/unnamed/part_000`, the earliest marketplace iteration.
Only its `ProfessionalCard` rating line is claim-relevant. -/

/-- The rating line of `ProfessionalCard` in `src/unnamed/part_000`:
`professional.Rating.toFixed(1)`, unconditionally. An absent rating makes the
`toFixed` call throw, so the card renders no rating text at all: that path is
`none`. -/
def ratingText (rating : Option ℚ) : Option String :=
  rating.map toFixed1

end EarlyApp

namespace ModalApp

/-! Embedding of the first document of `src/unnamed/part_001`, the marketplace
iteration that introduces the booking modal. This variant has no user state. -/

/-- The component state held by `App` in the modal iteration: one field per
`useState` hook. -/
structure AppState where
  professionals : JsVal
  selectedProfessional : Option JsVal
  isBooking : Bool
  isLoading : Bool
  error : Option String

/-- `handleOpenBookingModal` in the modal iteration: opens the modal
unconditionally (this variant has no authentication). -/
def handleOpenBookingModal (s : AppState) : AppState :=
  { s with isBooking := true }

/-- The rating line of `ProfessionalCard` in the modal iteration:
`professional.Rating ? professional.Rating.toFixed(1) : "N/A"`. -/
def ratingText (rating : Option ℚ) : String :=
  match rating with
  | some q => if decide (q ≠ 0) then toFixed1 q else "N/A"
  | none => "N/A"

end ModalApp

namespace Whiteboard

/-! Embedding of the second document of `src/unnamed/part_001`, the
collaborative whiteboard. Coordinates are exact rationals. -/

/-- A canvas point, as stored in a pen stroke. -/
structure Point where
  x : ℚ
  y : ℚ
deriving DecidableEq

/-- The active tool. -/
inductive Tool where
  | pen
  | rectangle
  | circle
  | eraser
deriving DecidableEq

/-- A drawable element. The source builds pen elements without the geometry
fields and box elements without a point list; the unused fields stay at their
creation defaults here (zero and the empty list) and are never read for the
corresponding type tag, mirroring the absent properties. The server timestamp
(in milliseconds) is `none` until the element is persisted. -/
structure Element where
  id : String
  type : Tool
  x : ℚ := 0
  y : ℚ := 0
  width : ℚ := 0
  height : ℚ := 0
  points : List Point := []
  color : String
  userId : String
  timestamp : Option ℤ := none
deriving DecidableEq

/-- `createElement`: a fresh element for the active tool at the pointer-down
position, or `null` for the eraser (the default arm). -/
def createElement (tool : Tool) (id : String) (x y : ℚ) (color userId : String) :
    Option Element :=
  match tool with
  | .pen => some { id := id, type := .pen, points := [⟨x, y⟩], color := color, userId := userId }
  | .rectangle => some { id := id, type := .rectangle, x := x, y := y, width := 0, height := 0,
                         color := color, userId := userId }
  | .circle => some { id := id, type := .circle, x := x, y := y, width := 0, height := 0,
                      color := color, userId := userId }
  | .eraser => none

/-- The update `handleMouseMove` applies to the in-progress element at pointer
position (x, y): a pen appends the point, a rectangle or circle takes the
signed delta from its origin as width and height, and the default arm returns
the copy unchanged. -/
def handleMouseMove (el : Element) (x y : ℚ) : Element :=
  match el.type with
  | .pen => { el with points := el.points ++ [⟨x, y⟩] }
  | .rectangle => { el with width := x - el.x, height := y - el.y }
  | .circle => { el with width := x - el.x, height := y - el.y }
  | .eraser => el

/-- `handleMouseUp`: the in-progress element is written wholesale, keyed by its
id, with a server-assigned timestamp spread over it. -/
def handleMouseUp (drawing : Element) (serverTime : ℤ) : Element :=
  { drawing with timestamp := some serverTime }

/-- A full pointer gesture: element creation at the start point, then one
`handleMouseMove` update per subsequent pointer position, in order. `none`
exactly when the tool creates no element. -/
def runGesture (tool : Tool) (id : String) (start : Point) (moves : List Point)
    (color userId : String) : Option Element :=
  (createElement tool id start.x start.y color userId).map (fun el0 =>
    moves.foldl (fun el p => handleMouseMove el p.x p.y) el0)

/-- The radius `drawElement` passes to `ctx.arc` for a circle element:
`Math.sqrt(Math.pow(el.width, 2) + Math.pow(el.height, 2))`. -/
noncomputable def drawCircleRadius (el : Element) : ℝ :=
  Real.sqrt ((el.width : ℝ) ^ 2 + (el.height : ℝ) ^ 2)

/-- The sort key of the snapshot handler: `a.timestamp?.toMillis() || 0`
(an element with no timestamp, or a zero timestamp, keys as zero — the two
coincide). -/
def tsMillis (el : Element) : ℤ :=
  el.timestamp.getD 0

/-- The element list the snapshot handler stores: the fetched documents sorted
ascending by the timestamp key (`fetchedElements.sort((a, b) => ...)` with the
numeric difference comparator). -/
def snapshotElements (docs : List Element) : List Element :=
  docs.mergeSort (fun a b => decide (tsMillis a ≤ tsMillis b))

end Whiteboard

/-- A canonical recognized-session response from the session endpoint: an array
with one element carrying `user_id` and a `user_claims` list whose first claim
is typed `name`. -/
def authMeRecognized : JsVal :=
  .arr [.obj [("user_id", .str "sid-12345"),
              ("user_claims", .arr [.obj [("typ", .str "name"), ("val", .str "Asha Rao")]])]]

/-- A state with the professionals loaded and nobody logged in. -/
def guestState : MainApp.AppState :=
  { professionals := .arr []
    selectedProfessional := none
    isBooking := false
    isLoading := false
    error := none
    user := none }

/-- A state with a logged-in user. -/
def authedState : MainApp.AppState :=
  { guestState with user := some (.str "user-7") }

/-- A state of the modal iteration (which has no user state at all) on the
list view with the modal closed. -/
def modalListState : ModalApp.AppState :=
  { professionals := .arr []
    selectedProfessional := none
    isBooking := false
    isLoading := false
    error := none }

/-- Claim C1: the claim states that a successful session response holding a
recognized session yields a user whose display name is the first `name` or
`preferred_username` claim value, else the raw `user_id`. The code tests
`data.user_id` and `data.user_claims` on the parsed response array itself
rather than on its first element; a JSON-parsed array has no such own
properties, so the guard never holds: `checkUserAuth` yields no user on the
canonical recognized-session response, and indeed on every parsed response. -/
theorem c1_checkUserAuth_never_recognizes_a_session :
    MainApp.checkUserAuth true authMeRecognized = none ∧
    ∀ (ok : Bool) (data : JsVal), MainApp.checkUserAuth ok data = none := by
  refine ⟨rfl, fun ok data => ?_⟩
  cases data <;> simp [MainApp.checkUserAuth, isArray, getProp, truthy]

/-- Counterexample to claim C2 as stated: the modal iteration (first document
of `src/unnamed/part_001`, cited by the claim) has no authenticated user in
any state, yet invoking its Book Now handler on a state with the modal closed
sets the modal-open flag — and its handler has no redirect path at all. -/
theorem c2_ungated_book_now_counterexample :
    modalListState.isBooking = false ∧
    (ModalApp.handleOpenBookingModal modalListState).isBooking = true :=
  ⟨rfl, rfl⟩

/-- Claim C2 as amended: in the authenticated app (`src/src/App.js`) the Book
Now handler with no user redirects to the login URL and leaves the state
(hence the modal-open flag) untouched, and with a user opens the modal and
issues no redirect; the earlier modal iteration, which has no authentication
at all, opens the modal on every invocation. -/
theorem c2_book_now_gated_on_user (s : MainApp.AppState) (pathname search : String) :
    (s.user = none →
      MainApp.handleOpenBookingModal s pathname search =
        (s, { alerts := ["Please log in to book a service."]
              redirect := some (MainApp.buildLoginUrl pathname search) })) ∧
    (∀ u : JsVal, s.user = some u →
      MainApp.handleOpenBookingModal s pathname search =
        ({ s with isBooking := true }, { alerts := [], redirect := none })) ∧
    (∀ t : ModalApp.AppState, (ModalApp.handleOpenBookingModal t).isBooking = true) := by
  refine ⟨fun h => ?_, fun u h => ?_, fun t => rfl⟩
  · simp [MainApp.handleOpenBookingModal, h]
  · simp [MainApp.handleOpenBookingModal, h]

/-- Witness for claim C2 at concrete states: a guest invocation redirects to
the login URL without touching the state, and an authenticated invocation
opens the modal. -/
theorem c2_book_now_gated_on_user_witness :
    MainApp.handleOpenBookingModal guestState "/" "" =
      (guestState, { alerts := ["Please log in to book a service."]
                     redirect := some (MainApp.buildLoginUrl "/" "") }) ∧
    MainApp.handleOpenBookingModal authedState "/" "" =
      ({ authedState with isBooking := true }, { alerts := [], redirect := none }) :=
  ⟨(c2_book_now_gated_on_user guestState "/" "").1 rfl,
   (c2_book_now_gated_on_user authedState "/" "").2.1 (.str "user-7") rfl⟩

/-- Claim C4: with a user present (the only way the modal can be open), the
confirm handler ends in the state with the modal-open flag cleared and every
other field unchanged, for every outcome of the booking request — success,
non-success status (with or without a parseable error body), or network
failure. The view therefore returns to the pre-submission detail state. -/
theorem c4_confirm_booking_always_closes_modal (s : MainApp.AppState) (u : JsVal)
    (r : MainApp.BookingResult) (h : s.user = some u) :
    (MainApp.handleConfirmBooking s r).1 = { s with isBooking := false } := by
  simp [MainApp.handleConfirmBooking, h]

/-- Witness for claim C4: a concrete authenticated state whose booking request
fails on the network still ends with the modal closed and the rest of the
state intact. -/
theorem c4_confirm_booking_always_closes_modal_witness :
    (MainApp.handleConfirmBooking authedState (.networkError "Failed to fetch")).1 =
      { authedState with isBooking := false } :=
  c4_confirm_booking_always_closes_modal authedState (.str "user-7")
    (.networkError "Failed to fetch") rfl

/-- Claim C8: selecting a professional and going back lands on the list view
(no selection) with the professionals list exactly as before. -/
theorem c8_select_then_back_roundtrip (s : MainApp.AppState) (p : JsVal) :
    (MainApp.handleGoBack (MainApp.handleSelectProfessional s p)).selectedProfessional = none ∧
    (MainApp.handleGoBack (MainApp.handleSelectProfessional s p)).professionals =
      s.professionals :=
  ⟨rfl, rfl⟩

/-- Counterexample to claim C3 as stated: the card of the earliest iteration
(`src/unnamed/part_000`, cited by the claim) formats the rating
unconditionally, so a record whose rating is zero renders "0.0", not "N/A". -/
theorem c3_zero_rating_counterexample :
    EarlyApp.ratingText (some 0) = some "0.0" ∧
    EarlyApp.ratingText (some 0) ≠ some "N/A" := by
  constructor <;> decide

/-- Claim C3 as amended: in the authenticated app and in the modal iteration
the card shows the rating to one decimal place when it is present and
non-zero, and the literal "N/A" when it is absent or zero; `toFixed1` output
always ends in a decimal point followed by one digit. The earliest iteration
instead formats whatever rating is present unconditionally and renders no
rating text when it is absent. -/
theorem c3_rating_one_decimal_or_na (q : ℚ) :
    (q ≠ 0 →
      MainApp.ratingText (some q) = toFixed1 q ∧ ModalApp.ratingText (some q) = toFixed1 q) ∧
    MainApp.ratingText (some 0) = "N/A" ∧ MainApp.ratingText none = "N/A" ∧
    ModalApp.ratingText (some 0) = "N/A" ∧ ModalApp.ratingText none = "N/A" ∧
    (∃ (pre : String) (d : ℕ), d < 10 ∧ toFixed1 q = pre ++ "." ++ toString d) ∧
    EarlyApp.ratingText (some q) = some (toFixed1 q) ∧ EarlyApp.ratingText none = none := by
  refine ⟨fun h => ⟨by simp [MainApp.ratingText, h], by simp [ModalApp.ratingText, h]⟩,
          by decide, by decide, by decide, by decide, ?_, rfl, rfl⟩
  refine ⟨(if q < 0 then "-" else "") ++ toString ((20 * q.num.natAbs + q.den) / (2 * q.den) / 10),
          (20 * q.num.natAbs + q.den) / (2 * q.den) % 10, Nat.mod_lt _ (by norm_num), ?_⟩
  simp [toFixed1, String.append_assoc]

/-- Witness for claim C3 (amended) at the concrete non-zero rating 9/2: the
card shows its one-decimal rendering, which is "4.5". -/
theorem c3_rating_one_decimal_or_na_witness :
    MainApp.ratingText (some (mkRat 9 2)) = toFixed1 (mkRat 9 2) ∧
    toFixed1 (mkRat 9 2) = "4.5" :=
  ⟨((c3_rating_one_decimal_or_na (mkRat 9 2)).1 (by decide)).1, by decide⟩

/-- One step of the main app preserves the professionals state being an
array. -/
lemma step_preserves_professionals_array (s : MainApp.AppState) (op : MainApp.Op)
    (h : isArray s.professionals = true) :
    isArray (MainApp.step s op).professionals = true := by
  cases op with
  | authResponse ok data =>
      rcases h2 : MainApp.checkUserAuth ok data with _ | u <;>
        simpa [MainApp.step, MainApp.applyCheckUserAuth, h2] using h
  | professionalsResponse r =>
      cases r with
      | ok body =>
          cases body <;> simp [MainApp.step, MainApp.fetchProfessionals, isArray]
      | error message => simpa [MainApp.step, MainApp.fetchProfessionals] using h
  | selectProfessional p => simpa [MainApp.step, MainApp.handleSelectProfessional] using h
  | goBack => simpa [MainApp.step, MainApp.handleGoBack] using h
  | openBookingModal pathname search =>
      unfold MainApp.step MainApp.handleOpenBookingModal
      cases s.user <;> simpa using h
  | closeBookingModal => simpa [MainApp.step, MainApp.handleCloseBookingModal] using h
  | confirmBooking r =>
      unfold MainApp.step MainApp.handleConfirmBooking
      cases s.user <;> simpa using h

/-- Folding any event sequence from a state whose professionals field is an
array keeps it an array. -/
lemma foldl_step_preserves_professionals_array (ops : List MainApp.Op) :
    ∀ s : MainApp.AppState, isArray s.professionals = true →
      isArray ((ops.foldl MainApp.step s).professionals) = true := by
  induction ops with
  | nil => intro s h; simpa using h
  | cons op rest ih =>
      intro s h
      simpa using ih (MainApp.step s op) (step_preserves_professionals_array s op h)

/-- Claim C9: the professionals state starts as the empty array; after any
event sequence it is still an array; a successful fetch stores the body when
that body is an array and the empty array otherwise; a failed fetch leaves it
unchanged; and every event either leaves it unchanged or is a successful
fetch. -/
theorem c9_professionals_always_an_array :
    MainApp.initialState.professionals = JsVal.arr [] ∧
    (∀ ops : List MainApp.Op,
      isArray ((ops.foldl MainApp.step MainApp.initialState).professionals) = true) ∧
    (∀ (s : MainApp.AppState) (body : JsVal),
      (MainApp.step s (.professionalsResponse (.ok body))).professionals =
        if isArray body then body else JsVal.arr []) ∧
    (∀ (s : MainApp.AppState) (message : String),
      (MainApp.step s (.professionalsResponse (.error message))).professionals =
        s.professionals) ∧
    (∀ (s : MainApp.AppState) (op : MainApp.Op),
      (MainApp.step s op).professionals = s.professionals ∨
        ∃ body : JsVal, op = .professionalsResponse (.ok body)) := by
  refine ⟨rfl, fun ops => foldl_step_preserves_professionals_array ops MainApp.initialState rfl,
          fun s body => rfl, fun s message => rfl, fun s op => ?_⟩
  cases op with
  | authResponse ok data =>
      left
      rcases h2 : MainApp.checkUserAuth ok data with _ | u <;>
        simp [MainApp.step, MainApp.applyCheckUserAuth, h2]
  | professionalsResponse r =>
      cases r with
      | ok body => exact Or.inr ⟨body, rfl⟩
      | error message => exact Or.inl rfl
  | selectProfessional p => exact Or.inl rfl
  | goBack => exact Or.inl rfl
  | openBookingModal pathname search =>
      left
      unfold MainApp.step MainApp.handleOpenBookingModal
      cases s.user <;> simp
  | closeBookingModal => exact Or.inl rfl
  | confirmBooking r =>
      left
      unfold MainApp.step MainApp.handleConfirmBooking
      cases s.user <;> simp

/-- Claim C10: one pointer-move update is exactly a point append for a pen and
a width/height overwrite for a rectangle or circle; the identifier, type tag,
origin coordinates, color, owning user identifier (and the not-yet-assigned
timestamp) keep their pointer-down values. The single record-update equation
captures the whole frame condition. -/
theorem c10_mouse_move_frame (el : Whiteboard.Element) (x y : ℚ) :
    Whiteboard.handleMouseMove el x y =
      { el with
        points := if el.type = .pen then el.points ++ [⟨x, y⟩] else el.points
        width := if el.type = .rectangle ∨ el.type = .circle then x - el.x else el.width
        height := if el.type = .rectangle ∨ el.type = .circle then y - el.y else el.height } := by
  cases h : el.type with
  | pen => simp [Whiteboard.handleMouseMove, h]
  | rectangle => simp [Whiteboard.handleMouseMove, h]
  | circle => simp [Whiteboard.handleMouseMove, h]
  | eraser =>
      simp [Whiteboard.handleMouseMove, h]
      rw [← h]

/-- Folding pointer-move updates over a pen element appends exactly the moved
points, in order. -/
lemma foldl_mouse_move_pen (moves : List Whiteboard.Point) :
    ∀ el : Whiteboard.Element, el.type = .pen →
      moves.foldl (fun e p => Whiteboard.handleMouseMove e p.x p.y) el =
        { el with points := el.points ++ moves } := by
  induction moves with
  | nil => intro el _; simp
  | cons p ps ih =>
      intro el h
      have h1 : Whiteboard.handleMouseMove el p.x p.y = { el with points := el.points ++ [p] } := by
        simp [Whiteboard.handleMouseMove, h]
      simp only [List.foldl_cons, h1]
      rw [ih { el with points := el.points ++ [p] } h]
      simp

/-- Claim C7: a pen gesture starting at p0 and moving through p1..pn persists
an element whose point sequence is exactly p0, p1, ..., pn in order; in
particular the gesture through (0,0), (10,0), (10,10) persists exactly those
three points. -/
theorem c7_pen_gesture_persists_points_in_order :
    (∀ (id color userId : String) (p0 : Whiteboard.Point) (moves : List Whiteboard.Point) (t : ℤ),
      (Whiteboard.runGesture .pen id p0 moves color userId).map
        (fun el => (Whiteboard.handleMouseUp el t).points) = some (p0 :: moves)) ∧
    (∀ t : ℤ,
      (Whiteboard.runGesture .pen "u1-1700000000000" ⟨0, 0⟩ [⟨10, 0⟩, ⟨10, 10⟩] "#000000" "u1").map
        (fun el => (Whiteboard.handleMouseUp el t).points) =
        some [⟨0, 0⟩, ⟨10, 0⟩, ⟨10, 10⟩]) := by
  have main : ∀ (id color userId : String) (p0 : Whiteboard.Point)
      (moves : List Whiteboard.Point) (t : ℤ),
      (Whiteboard.runGesture .pen id p0 moves color userId).map
        (fun el => (Whiteboard.handleMouseUp el t).points) = some (p0 :: moves) := by
    intro id color userId p0 moves t
    simp only [Whiteboard.runGesture, Whiteboard.createElement, Option.map_some']
    rw [foldl_mouse_move_pen moves _ rfl]
    simp [Whiteboard.handleMouseUp]
  exact ⟨main, fun t => main "u1-1700000000000" "#000000" "u1" ⟨0, 0⟩ [⟨10, 0⟩, ⟨10, 10⟩] t⟩

/-- Folding pointer-move updates over a rectangle or circle element changes
only its width and height. -/
lemma foldl_mouse_move_box (moves : List Whiteboard.Point) :
    ∀ el : Whiteboard.Element, el.type = .rectangle ∨ el.type = .circle →
      ∃ w h : ℚ,
        moves.foldl (fun e p => Whiteboard.handleMouseMove e p.x p.y) el =
          { el with width := w, height := h } := by
  induction moves with
  | nil => intro el _; exact ⟨el.width, el.height, by simp⟩
  | cons p ps ih =>
      intro el h
      have h1 : Whiteboard.handleMouseMove el p.x p.y =
          { el with width := p.x - el.x, height := p.y - el.y } := by
        rcases h with h | h <;> simp [Whiteboard.handleMouseMove, h]
      obtain ⟨w, hh, he⟩ := ih { el with width := p.x - el.x, height := p.y - el.y } h
      exact ⟨w, hh, by simp only [List.foldl_cons, h1]; rw [he]⟩

/-- The last pointer position of a rectangle or circle gesture determines the
final width and height as the signed delta from the unchanged origin. -/
lemma foldl_mouse_move_box_last (el : Whiteboard.Element)
    (h : el.type = .rectangle ∨ el.type = .circle) (moves : List Whiteboard.Point)
    (p : Whiteboard.Point) :
    (moves ++ [p]).foldl (fun e q => Whiteboard.handleMouseMove e q.x q.y) el =
      { el with width := p.x - el.x, height := p.y - el.y } := by
  obtain ⟨w, hh, he⟩ := foldl_mouse_move_box moves el h
  rw [List.foldl_append, he]
  rcases h with h | h <;> simp [Whiteboard.handleMouseMove, h]

/-- Claim C5: the rendered circle radius is the Euclidean norm of the signed
width and height, and a circle gesture starting at (50,50) and ending at
(50,80) — through any intermediate points — persists width 0 and height 30 at
the unchanged origin (50,50) and renders with radius 30. -/
theorem c5_circle_renders_euclidean_radius :
    (∀ el : Whiteboard.Element,
      Whiteboard.drawCircleRadius el =
        Real.sqrt ((el.width : ℝ) ^ 2 + (el.height : ℝ) ^ 2)) ∧
    (∀ (id color userId : String) (moves : List Whiteboard.Point) (t : ℤ),
      (Whiteboard.runGesture .circle id ⟨50, 50⟩ (moves ++ [⟨50, 80⟩]) color userId).map
        (fun el =>
          ((Whiteboard.handleMouseUp el t).x, (Whiteboard.handleMouseUp el t).y,
           (Whiteboard.handleMouseUp el t).width, (Whiteboard.handleMouseUp el t).height)) =
        some (50, 50, 0, 30)) ∧
    (∀ (id color userId : String) (moves : List Whiteboard.Point) (t : ℤ),
      (Whiteboard.runGesture .circle id ⟨50, 50⟩ (moves ++ [⟨50, 80⟩]) color userId).map
        (fun el => Whiteboard.drawCircleRadius (Whiteboard.handleMouseUp el t)) = some 30) := by
  refine ⟨fun el => rfl, fun id color userId moves t => ?_, fun id color userId moves t => ?_⟩
  · simp only [Whiteboard.runGesture, Whiteboard.createElement, Option.map_some']
    rw [foldl_mouse_move_box_last _ (Or.inr rfl)]
    simp [Whiteboard.handleMouseUp]
    norm_num
  · simp only [Whiteboard.runGesture, Whiteboard.createElement, Option.map_some']
    rw [foldl_mouse_move_box_last _ (Or.inr rfl)]
    simp only [Whiteboard.handleMouseUp, Whiteboard.drawCircleRadius, Option.some_inj]
    have hsq : (((50 - 50 : ℚ) : ℝ)) ^ 2 + (((80 - 50 : ℚ) : ℝ)) ^ 2 = 30 ^ 2 := by
      push_cast
      norm_num
    rw [hsq, Real.sqrt_sq (by norm_num : (0 : ℝ) ≤ 30)]

/-- Claim C6: the element list stored by the snapshot handler is sorted
ascending by the server-timestamp key (an element with no timestamp keyed as
zero) and is a permutation of the fetched documents, so the shapes of all
authors appear, ordered by persisted timestamp, regardless of local creation
order. -/
theorem c6_snapshot_sorted_by_timestamp (docs : List Whiteboard.Element) :
    (Whiteboard.snapshotElements docs).Pairwise
      (fun a b => Whiteboard.tsMillis a ≤ Whiteboard.tsMillis b) ∧
    (Whiteboard.snapshotElements docs).Perm docs := by
  constructor
  · unfold Whiteboard.snapshotElements
    refine List.Pairwise.imp (fun hab => of_decide_eq_true hab)
      (List.sorted_mergeSort ?_ ?_ docs)
    · intro a b c hab hbc
      exact decide_eq_true (le_trans (of_decide_eq_true hab) (of_decide_eq_true hbc))
    · intro a b
      rcases le_total (Whiteboard.tsMillis a) (Whiteboard.tsMillis b) with h | h <;>
        simp [decide_eq_true h]
  · exact List.mergeSort_perm docs _
